import Mathlib

/-
Verification of the fusion dashboard (src/script.js, canonical variant, and
src/unnamed/part_000, legacy variant) against its specification.

The embedding is shallow: decoded JSON replies are modelled by the inductive
type JVal, JavaScript truthiness and field access are modelled explicitly, and
each handler of the script becomes a pure Lean function from the relevant
state and the decoded reply to the next state together with its user-visible
outcome (toast message, network request, screen switch).

Finite JavaScript numbers are modelled by the rationals, the infinities by a
dedicated constructor, and NaN as a coercion result; the Number() conversion
is embedded with its full StringNumericLiteral grammar (sign, fraction,
exponent, Infinity, and the radix-marked integer forms). JavaScript numbers
are IEEE doubles, so a string denoting a value a double would round parses
exactly here; no fixture or claim value is affected by that rounding.
-/

/-- Decoded JavaScript values as they occur in API replies and state: the
undefined value (absent field, failed lookup), null, booleans, finite
numbers, the two infinities, strings, arrays and plain objects. JSON
decoding never produces an infinity; jinf only arises as the result of a
Number() coercion stored back into state. -/
inductive JVal where
  | undefined
  | jnull
  | jbool (b : Bool)
  | jnum (q : ℚ)
  | jinf (neg : Bool)
  | jstr (s : String)
  | jarr (elems : List JVal)
  | jobj (fields : List (String × JVal))

/-- JavaScript truthiness of a decoded value: undefined, null, false, 0 and
the empty string are falsy; every array and object is truthy. (NaN never
arises: JSON decoding cannot produce it.) -/
def truthy : JVal → Bool
  | .undefined => false
  | .jnull => false
  | .jbool b => b
  | .jnum q => q != 0
  | .jinf _ => true
  | .jstr s => s != ""
  | .jarr _ => true
  | .jobj _ => true

/-- The JavaScript expression a || b on decoded values: a when truthy,
else b. -/
def jsOr (a b : JVal) : JVal := if truthy a then a else b

/-- Property read v.k, with the semantics the scripts rely on: a present
field of an object is returned, anything else (missing field, non-object)
yields undefined. This also models the optional chains v?.k used by the
canonical variant, since the scripts never read these names off strings or
arrays. -/
def getField : JVal → String → JVal
  | .jobj fs, k => (fs.lookup k).getD .undefined
  | _, _ => .undefined

/-- True exactly on the undefined value; models the test
typeof x !== 'undefined' (negated). -/
def isUndefined : JVal → Bool
  | .undefined => true
  | _ => false

/-- True exactly on values of number type; models typeof x === 'number',
which also holds of the infinities. -/
def isNum : JVal → Bool
  | .jnum _ => true
  | .jinf _ => true
  | _ => false

/-- True exactly on arrays; models Array.isArray. -/
def isArr : JVal → Bool
  | .jarr _ => true
  | _ => false

/-- The result of the JavaScript Number() conversion: NaN, an infinity, or
a finite value. JavaScript numbers are IEEE doubles; the model carries exact
rationals, so a numeric string denoting a value that a double would round is
parsed exactly here. No fixture or claim value is affected by that
rounding. -/
inductive JsNum where
  | nan
  | inf (neg : Bool)
  | fin (q : ℚ)
  deriving DecidableEq

/-- The white space and line terminator characters that the ToNumber
conversion strips from both ends of a string. -/
def isJsSpace (c : Char) : Bool :=
  [' ', '\t', '\n', '\r', '\x0b', '\x0c', '\u00A0', '\uFEFF', '\u1680',
   '\u2000', '\u2001', '\u2002', '\u2003', '\u2004', '\u2005', '\u2006',
   '\u2007', '\u2008', '\u2009', '\u200A', '\u2028', '\u2029', '\u202F',
   '\u205F', '\u3000'].contains c

/-- Strip the ToNumber white space from both ends of a character list. -/
def trimChars (cs : List Char) : List Char :=
  ((cs.dropWhile isJsSpace).reverse.dropWhile isJsSpace).reverse

/-- Split a character list at the first character satisfying p, dropping
that character; none when no character satisfies p. -/
def splitAtChar (p : Char → Bool) : List Char → Option (List Char × List Char)
  | [] => none
  | c :: rest =>
      if p c then some ([], rest)
      else (splitAtChar p rest).map fun pr => (c :: pr.1, pr.2)

/-- The natural number denoted by a list of decimal digits (checked to be
digits by the callers). -/
def digitsToNat (cs : List Char) : Nat :=
  cs.foldl (fun a c => a * 10 + (c.toNat - 48)) 0

/-- Parse the mantissa of a decimal numeric string: digits with at most one
decimal point and at least one digit, returning the digit value together
with the number of fraction digits. -/
def parseMantissa (cs : List Char) : Option (Nat × Nat) :=
  match splitAtChar (fun c => c == '.') cs with
  | none =>
      if !cs.isEmpty && cs.all Char.isDigit then some (digitsToNat cs, 0)
      else none
  | some (ip, fp) =>
      if !(ip ++ fp).isEmpty && ip.all Char.isDigit && fp.all Char.isDigit then
        some (digitsToNat (ip ++ fp), fp.length)
      else none

/-- Parse the digits of an exponent part, with the sign already read. -/
def parseExpDigits (neg : Bool) (cs : List Char) : Option Int :=
  if !cs.isEmpty && cs.all Char.isDigit then
    some (if neg then -(digitsToNat cs : Int) else (digitsToNat cs : Int))
  else none

/-- Parse an exponent part: an optional sign followed by decimal digits. -/
def parseExp : List Char → Option Int
  | '+' :: r => parseExpDigits false r
  | '-' :: r => parseExpDigits true r
  | r => parseExpDigits false r

/-- The rational denoted by a parsed decimal literal: digit value mant with
fracLen fraction digits, a power-of-ten exponent and a sign. -/
def decValue (neg : Bool) (mant fracLen : Nat) (exp : Int) : JsNum :=
  let e : Int := exp - fracLen
  let q : ℚ :=
    if 0 ≤ e then mkRat (mant * 10 ^ e.toNat : Nat) 1
    else mkRat (mant : Nat) (10 ^ (-e).toNat)
  .fin (if neg then -q else q)

/-- The value of one hexadecimal digit character. -/
def hexCharVal (c : Char) : Option Nat :=
  if c.isDigit then some (c.toNat - 48)
  else if 'a' ≤ c && c ≤ 'f' then some (c.toNat - 87)
  else if 'A' ≤ c && c ≤ 'F' then some (c.toNat - 55)
  else none

/-- Parse the digits of a non-decimal integer literal (hexadecimal, octal or
binary body after its 0x, 0o or 0b marker): every character must be a digit
of the radix and at least one must be present. -/
def parseRadix (radix : Nat) (cs : List Char) : JsNum :=
  match cs.mapM hexCharVal with
  | some ds =>
      if !ds.isEmpty && ds.all (· < radix) then
        .fin ((ds.foldl (fun a d => a * radix + d) 0 : Nat) : ℚ)
      else .nan
  | none => .nan

/-- Parse an unsigned decimal body: the Infinity literal, or a decimal
mantissa with an optional exponent part. -/
def parseUnsignedDec (neg : Bool) (cs : List Char) : JsNum :=
  if cs = "Infinity".toList then .inf neg
  else
    match splitAtChar (fun c => c == 'e' || c == 'E') cs with
    | none =>
        match parseMantissa cs with
        | some (m, f) => decValue neg m f 0
        | none => .nan
    | some (mant, ex) =>
        match parseMantissa mant, parseExp ex with
        | some (m, f), some e => decValue neg m f e
        | _, _ => .nan

/-- Parse an optionally signed decimal body (the sign is only admitted on
decimal and Infinity forms, never on the radix-marked integer forms). -/
def parseSignedDec : List Char → JsNum
  | '+' :: r => parseUnsignedDec false r
  | '-' :: r => parseUnsignedDec true r
  | r => parseUnsignedDec false r

/-- Parse a trimmed non-empty numeric string: a radix-marked integer
literal, or a signed decimal or Infinity form. -/
def parseNumeric (cs : List Char) : JsNum :=
  match cs with
  | '0' :: c :: rest =>
      if c == 'x' || c == 'X' then parseRadix 16 rest
      else if c == 'o' || c == 'O' then parseRadix 8 rest
      else if c == 'b' || c == 'B' then parseRadix 2 rest
      else parseSignedDec ('0' :: c :: rest)
  | _ => parseSignedDec cs

/-- JavaScript Number() on a string, per the StringNumericLiteral grammar:
white space is trimmed, a blank string gives 0, and the body is read as a
signed decimal (with optional fraction and exponent), a signed Infinity, or
an unsigned 0x, 0o or 0b integer literal; anything else is NaN. -/
def strToNum (s : String) : JsNum :=
  let t := trimChars s.toList
  if t.isEmpty then .fin 0 else parseNumeric t

/-- JavaScript Number() of a one-element array holding the given value: the
array converts through its joined string form, under which null and
undefined elements print as blank (giving 0), numbers and strings re-parse
as themselves, one-element arrays flatten recursively, and booleans, plain
objects and longer arrays give NaN. -/
def toNumberArr1 : JVal → JsNum
  | .undefined => .fin 0
  | .jnull => .fin 0
  | .jbool _ => .nan
  | .jnum q => .fin q
  | .jinf neg => .inf neg
  | .jstr s => strToNum s
  | .jarr [] => .fin 0
  | .jarr [v] => toNumberArr1 v
  | .jarr (_ :: _ :: _) => .nan
  | .jobj _ => .nan

/-- JavaScript Number() on a decoded value: undefined is NaN, null and the
empty array are 0, booleans are 0 or 1, numbers are themselves, strings are
parsed by the StringNumericLiteral grammar, a one-element array converts
through its string form, and longer arrays and plain objects are NaN. -/
def toNumber : JVal → JsNum
  | .undefined => .nan
  | .jnull => .fin 0
  | .jbool b => .fin (if b then 1 else 0)
  | .jnum q => .fin q
  | .jinf neg => .inf neg
  | .jstr s => strToNum s
  | .jarr [] => .fin 0
  | .jarr [v] => toNumberArr1 v
  | .jarr (_ :: _ :: _) => .nan
  | .jobj _ => .nan

/-- The JavaScript idiom Number(x) || 0 as a stored value: NaN (falsy) is
replaced by 0, a finite value or an infinity (truthy) is kept. -/
def numOr0 (v : JVal) : JVal :=
  match toNumber v with
  | .nan => .jnum 0
  | .inf neg => .jinf neg
  | .fin q => .jnum q

/-- Does a list of characters start with the given pattern. -/
def charsStartWith : List Char → List Char → Bool
  | [], _ => true
  | _ :: _, [] => false
  | a :: as, b :: bs => a == b && charsStartWith as bs

/-- Does a list of characters contain the given pattern as a contiguous
run. -/
def charsContain (pat s : List Char) : Bool :=
  match s with
  | [] => charsStartWith pat []
  | _ :: rest => charsStartWith pat s || charsContain pat rest

/-- JavaScript String.prototype.includes, used by apiFetch to recognise
endpoint families. -/
def strIncludes (s pat : String) : Bool := charsContain pat.toList s.toList

/- ---------- Fixture (MOCK) dataset, src/script.js lines 18 to 27 ---------- -/

/-- MOCK.token of the canonical variant. -/
def mockToken : JVal := .jstr "demo-token"

/-- MOCK.user of the canonical variant. -/
def mockUser : JVal :=
  .jobj [("name", .jstr "Demo User"), ("email", .jstr "demo@example.com"),
         ("phone", .jstr "08130000000")]

/-- MOCK.user of the legacy variant (src/unnamed/part_000 line 22). -/
def mockUserLegacy : JVal :=
  .jobj [("name", .jstr "Eunice Chidi"), ("email", .jstr "eunice@example.com"),
         ("phone", .jstr "08130000000")]

/-- MOCK.balance = 15200.5, written as the reduced fraction 30401/2. -/
def mockBalance : ℚ := ⟨30401, 2, by decide, by decide⟩

/-- MOCK.transactions, the three fixture rows (identical in both
variants). -/
def mockTransactions : JVal :=
  .jarr
    [ .jobj [("id", .jstr "tx_1"), ("title", .jstr "Top up"),
             ("meta", .jstr "Card"), ("amount", .jnum 5000),
             ("date", .jstr "2025-11-10")],
      .jobj [("id", .jstr "tx_2"), ("title", .jstr "Electricity"),
             ("meta", .jstr "Ibadan Elec"), ("amount", .jnum (-2300)),
             ("date", .jstr "2025-11-09")],
      .jobj [("id", .jstr "tx_3"), ("title", .jstr "Airtime"),
             ("meta", .jstr "0813xxxxxxx"), ("amount", .jnum (-500)),
             ("date", .jstr "2025-11-02")] ]

/- ---------- API replies and application state ---------- -/

/-- The value apiFetch resolves with: ok mirrors res.ok (or false on the
mock-miss and transport-failure paths), data the decoded body (undefined when
absent), status the HTTP status when a response arrived, and error the
transport-level error message (undefined unless the fetch threw or the mock
branch missed). -/
structure ApiResp where
  ok : Bool
  data : JVal := .undefined
  status : Option Nat := none
  error : JVal := .undefined

/-- Durable localStorage entries under the two fixed keys. The browser
stores string serialisations; the claims only inspect presence, removal and
unchangedness, so the written value is recorded as is. -/
structure Storage where
  pd_token : Option JVal := none
  pd_user : Option JVal := none

/-- Which top-level screen is visible: the auth screen or the dashboard. -/
inductive Screen where
  | auth
  | dashboard
  deriving DecidableEq

/-- The in-memory App object of the scripts (src/script.js lines 50 to 56),
with the dynamically typed fields kept as decoded values. -/
structure AppState where
  token : JVal := .jnull
  user : JVal := .jnull
  balanceVisible : Bool := true
  balance : JVal := .jnum 0
  transactions : JVal := .jarr []

/-- The full modelled program state: App object, durable storage, visible
screen. -/
structure St where
  app : AppState
  store : Storage
  screen : Screen

/-- The state at app start. -/
def initialSt : St := { app := {}, store := {}, screen := .auth }

/- ---------- Offline (no API_BASE) branch of apiFetch ---------- -/

/-- The branch of apiFetch taken when no backend base address is configured
(src/script.js lines 74 to 85): after a simulated delay the path is matched
against the endpoint families in order and a fixture reply is synthesized;
now stands for Date.now(), used to mint payment ids. -/
def apiFetchMock (path : String) (now : Nat) : ApiResp :=
  if strIncludes path "/auth/login" then
    { ok := true, data := .jobj [("token", mockToken), ("user", mockUser)] }
  else if strIncludes path "/auth/register" then
    { ok := true, data := .jobj [("token", mockToken), ("user", mockUser)] }
  else if strIncludes path "/me/balance" then
    { ok := true, data := .jobj [("balance", .jnum mockBalance)] }
  else if strIncludes path "/me/transactions" then
    { ok := true, data := .jobj [("transactions", mockTransactions)] }
  else if strIncludes path "/pay/service" then
    { ok := true, data := .jobj [("result", .jstr "success"),
                                 ("id", .jstr ("svc_" ++ toString now))] }
  else if strIncludes path "/pay/topup" then
    { ok := true, data := .jobj [("result", .jstr "success"),
                                 ("id", .jstr ("top_" ++ toString now))] }
  else
    { ok := false, error := .jstr "No API configured" }

/-- The same branch in the legacy variant (src/unnamed/part_000 lines 75 to
86): note the /pay/topup family is absent from its match list. -/
def apiFetchMockLegacy (path : String) (now : Nat) : ApiResp :=
  if strIncludes path "/auth/login" then
    { ok := true, data := .jobj [("token", mockToken), ("user", mockUserLegacy)] }
  else if strIncludes path "/auth/register" then
    { ok := true, data := .jobj [("token", mockToken), ("user", mockUserLegacy)] }
  else if strIncludes path "/me/balance" then
    { ok := true, data := .jobj [("balance", .jnum mockBalance)] }
  else if strIncludes path "/me/transactions" then
    { ok := true, data := .jobj [("transactions", mockTransactions)] }
  else if strIncludes path "/pay/service" then
    { ok := true, data := .jobj [("result", .jstr "success"),
                                 ("id", .jstr ("svc_" ++ toString now))] }
  else
    { ok := false, error := .jstr "No API configured (demo mode)" }

/- ---------- Failure-message extraction ---------- -/

/-- The canonical failure-message chain, src/script.js lines 125, 273 and
301: first the body message field, then the body error field, then the
transport-level error string, else the fixed fallback. -/
def failMsg (res : ApiResp) (fallback : String) : JVal :=
  jsOr (getField res.data "message")
    (jsOr (getField res.data "error") (jsOr res.error (.jstr fallback)))

/-- JavaScript string coercion, as needed by the legacy toast concatenation.
The legacy handlers only ever concatenate strings and absent values here;
array and number display forms are abbreviated and unused by any claim. -/
def jsToStr : JVal → String
  | .undefined => "undefined"
  | .jnull => "null"
  | .jbool b => cond b "true" "false"
  | .jnum q => toString q
  | .jinf neg => cond neg "-Infinity" "Infinity"
  | .jstr s => s
  | .jarr _ => ""
  | .jobj _ => "[object Object]"

/- ---------- Auth handlers ---------- -/

/-- Outcome of a login or registration attempt: on success the toast is
shown, the dashboard is entered and the balance and transaction refreshes
follow; on failure only the toast is shown. -/
inductive AuthOutcome where
  | loggedIn (msg : String)
  | failed (msg : JVal)

/-- handleLogin, src/script.js lines 109 to 128, from the point where the
login reply has arrived (the preceding empty-field check needs no reply and
is not part of any claim). On success the token is taken from the token
field, else the access_token field; the user from the user field, else the
profile field, else the fixture user; both are written to durable storage
and the dashboard is entered. Otherwise the failure-message chain is
toasted and nothing changes. -/
def handleLogin (st : St) (res : ApiResp) : St × AuthOutcome :=
  if res.ok && truthy res.data &&
      (truthy (getField res.data "token") || truthy (getField res.data "access_token")) then
    let tok := jsOr (getField res.data "token") (getField res.data "access_token")
    let usr := jsOr (getField res.data "user") (jsOr (getField res.data "profile") mockUser)
    ({ app := { st.app with token := tok, user := usr },
       store := { pd_token := some tok, pd_user := some usr },
       screen := .dashboard },
     .loggedIn "Logged in")
  else
    (st, .failed (failMsg res "Login failed"))

/-- handleRegister, src/script.js lines 130 to 150; identical reply handling
with its own toasts. -/
def handleRegister (st : St) (res : ApiResp) : St × AuthOutcome :=
  if res.ok && truthy res.data &&
      (truthy (getField res.data "token") || truthy (getField res.data "access_token")) then
    let tok := jsOr (getField res.data "token") (getField res.data "access_token")
    let usr := jsOr (getField res.data "user") (jsOr (getField res.data "profile") mockUser)
    ({ app := { st.app with token := tok, user := usr },
       store := { pd_token := some tok, pd_user := some usr },
       screen := .dashboard },
     .loggedIn "Account created")
  else
    (st, .failed (failMsg res "Register failed"))

/- ---------- Balance ---------- -/

/-- refreshBalance, src/script.js lines 163 to 173: on a success reply with a
defined balance field, Number(field) || 0 is stored; on a success reply that
is itself of number type, Number of it, which is the value itself; otherwise
the fixture balance. The stored value is always of number type. -/
def refreshBalance (st : St) (res : ApiResp) : St :=
  let b : JVal :=
    if res.ok && !(isUndefined (getField res.data "balance")) then
      numOr0 (getField res.data "balance")
    else if res.ok && isNum res.data then
      res.data
    else
      jsOr (.jnum mockBalance) (.jnum 0)
  { st with app := { st.app with balance := b } }

/-- refreshBalance of the legacy variant, src/unnamed/part_000 lines 149 to
158: on any success reply the raw balance field is stored with no coercion at
all. (On a null body the JS property read would throw; the modelled read
yields undefined, and no claim exercises that case.) -/
def refreshBalanceLegacy (st : St) (res : ApiResp) : St :=
  let b : JVal :=
    if res.ok then getField res.data "balance"
    else jsOr (.jnum mockBalance) (.jnum 0)
  { st with app := { st.app with balance := b } }

/-- Digit grouping of toLocaleString: commas every three digits, applied to a
reversed digit list. -/
def groupRev : List Char → List Char
  | a :: b :: c :: d :: rest => a :: b :: c :: ',' :: groupRev (d :: rest)
  | l => l

/-- Insert thousands separators into a digit string. -/
def commaGroup (s : String) : String := ⟨(groupRev s.toList.reverse).reverse⟩

/-- One half, written as an explicit fraction so that it evaluates. -/
def halfQ : ℚ := ⟨1, 2, by decide, by decide⟩

/-- Fixed-point rendering of a number with exactly two fraction digits and
grouped integer part, modelling the default-locale toLocaleString call of the
currency helper. (The exact rounding mode of toLocaleString is locale
dependent; no claim depends on it.) -/
def currencyOfQ (q : ℚ) : String :=
  let c : ℤ := ⌊q * 100 + halfQ⌋
  let n := c.natAbs
  let whole := n / 100
  let cents := n % 100
  (if c < 0 then "-" else "") ++ commaGroup (toString whole) ++ "." ++
    (if cents < 10 then "0" ++ toString cents else toString cents)

/-- currency, src/script.js lines 44 to 47: values not of number type are
coerced with Number(n) || 0, then the amount is rendered with the naira
sign (toLocaleString prints an infinity as the infinity sign). -/
def currency (v : JVal) : String :=
  let n : JVal := if isNum v then v else numOr0 v
  "₦" ++ match n with
    | .jnum q => currencyOfQ q
    | .jinf neg => cond neg "-∞" "∞"
    | _ => currencyOfQ 0

/-- updateBalanceUI, src/script.js lines 175 to 177, as the pure projection
it writes to the balance element: the masked placeholder when visibility is
off, else the currency string. -/
def balanceText (st : St) : String :=
  if st.app.balanceVisible then currency st.app.balance else "****"

/-- The toggle-balance click handler, src/script.js lines 324 to 327: flip
the visibility flag (updateBalanceUI then re-renders). -/
def toggleBalance (st : St) : St :=
  { st with app := { st.app with balanceVisible := !st.app.balanceVisible } }

/- ---------- Transactions ---------- -/

/-- loadTransactions, src/script.js lines 179 to 189: accept an array nested
under a transactions field, else a bare top-level array, else fall back to
the fixture rows. -/
def loadTransactions (st : St) (res : ApiResp) : St :=
  let t : JVal :=
    if res.ok && isArr (getField res.data "transactions") then
      getField res.data "transactions"
    else if res.ok && isArr res.data then res.data
    else mockTransactions
  { st with app := { st.app with transactions := t } }

/-- The fields of one rendered transaction row (src/script.js lines 198 to
210); the amount is Number of its fallback chain. -/
structure Row where
  title : JVal
  meta : JVal
  date : JVal
  amount : JsNum

/-- The row built for one transaction element inside
renderTransactions.forEach, src/script.js lines 197 to 212. -/
def renderRow (tx : JVal) : Row :=
  { title := jsOr (getField tx "title")
      (jsOr (getField tx "description") (jsOr (getField tx "type") (.jstr "Transaction"))),
    meta := jsOr (getField tx "meta")
      (jsOr (getField tx "source") (jsOr (getField tx "note") (.jstr ""))),
    date := jsOr (getField tx "date") (jsOr (getField tx "created_at") (.jstr "")),
    amount := toNumber (jsOr (getField tx "amount") (jsOr (getField tx "value") (.jnum 0))) }

/-- What renderTransactions leaves in the list element: the single
no-transactions placeholder row, or one rendered row per element. -/
inductive RenderedList where
  | noTransactions
  | rows (rs : List Row)

/-- renderTransactions, src/script.js lines 191 to 213: an absent, non-array
or empty collection renders the placeholder, otherwise each element is
rendered in order. -/
def renderTransactions (txs : JVal) : RenderedList :=
  match txs with
  | .jarr [] => .noTransactions
  | .jarr (x :: xs) => .rows ((x :: xs).map renderRow)
  | _ => .noTransactions

/-- The rows of a rendered list, the placeholder rendering none. -/
def renderedRows : RenderedList → List Row
  | .noTransactions => []
  | .rows rs => rs

/- ---------- Payments ---------- -/

/-- First stage of startPayment, src/script.js lines 219 to 266, up to the
point a network request is issued. amount is the already coerced
Number(input) || 0. With the PAYSTACK_PUBLIC_KEY of CONFIG empty (its value
in the source), the card branch is skipped, so a validated submission always
issues the POST /pay/topup request; a failed validation only toasts and
issues no request at all. -/
inductive TopupStep where
  | reject (msg : String)
  | callTopup (amount : ℚ) (method : String)

/-- The client-side minimum check and dispatch of startPayment (lines 220 to
222 and 266). -/
def startPayment (amount : ℚ) (method : String) : TopupStep :=
  if amount = 0 ∨ amount < 50 then .reject "Provide a valid amount (min 50)"
  else .callTopup amount method

/-- Outcome of a payment reply: on success the toast is shown, balance and
transactions refresh and the modal closes; on failure only the toast is
shown and the modal stays. -/
inductive PayOutcome where
  | success (msg : String)
  | failed (msg : JVal)

/-- Reply handling of the /pay/topup request, src/script.js lines 267 to
275. -/
def startPaymentResult (st : St) (res : ApiResp) : St × PayOutcome :=
  if res.ok then (st, .success "Top up initiated")
  else (st, .failed (failMsg res "Top up failed"))

/-- First stage of payService, src/script.js lines 289 to 294: the form
validation that precedes any network request. -/
inductive ServiceStep where
  | reject (msg : String)
  | callService (service : JVal) (customer : String) (amount : ℚ)

/-- The client-side validation and dispatch of payService (line 292 and
294). -/
def payServiceValidate (service : JVal) (customer : String) (amount : ℚ) : ServiceStep :=
  if customer = "" ∨ amount = 0 ∨ amount ≤ 0 then .reject "Complete the service form"
  else .callService service customer amount

/-- Reply handling of the /pay/service request, src/script.js lines 295 to
303. -/
def payServiceResult (st : St) (res : ApiResp) : St × PayOutcome :=
  if res.ok then (st, .success "Service paid")
  else (st, .failed (failMsg res "Service payment failed"))

/-- Reply handling of the legacy payService, src/unnamed/part_000 lines 271
to 279: the failure toast ignores the reply body and reports only the
transport-level error string behind a fixed prefix text. -/
def payServiceResultLegacy (st : St) (res : ApiResp) : St × PayOutcome :=
  if res.ok then (st, .success "Service paid")
  else (st, .failed (.jstr ("Service failed: " ++ jsToStr (jsOr res.error (.jstr "server error")))))

/- ---------- Logout ---------- -/

/-- The logout click handler, src/script.js lines 317 to 321: null out token
and user, remove both durable storage entries, and switch back to the auth
screen. Balance, transactions and the visibility flag are untouched. -/
def logout (st : St) : St :=
  { app := { st.app with token := .jnull, user := .jnull },
    store := { pd_token := none, pd_user := none },
    screen := .auth }

/-- The logout click handler of the legacy variant, src/unnamed/part_000
lines 293 to 296: token and user are nulled and the screen switches, but the
durable storage entries are left in place. -/
def logoutLegacy (st : St) : St :=
  { st with app := { st.app with token := .jnull, user := .jnull },
            screen := .auth }

/- ---------- Helper lemmas ---------- -/

/-- A JavaScript disjunction keeps its left operand when that is truthy. -/
theorem jsOr_pos {a : JVal} (b : JVal) (h : truthy a = true) : jsOr a b = a := by
  simp [jsOr, h]

/-- A JavaScript disjunction falls through to its right operand when the left
one is falsy. -/
theorem jsOr_neg {a : JVal} (b : JVal) (h : truthy a = false) : jsOr a b = b := by
  simp [jsOr, h]

/-- Truthiness of a JavaScript disjunction is the Boolean disjunction of the
truthiness of its operands. -/
theorem truthy_jsOr (a b : JVal) : truthy (jsOr a b) = (truthy a || truthy b) := by
  by_cases h : truthy a = true
  · simp [jsOr, h]
  · simp only [Bool.not_eq_true] at h
    simp [jsOr, h]

/-- The fixture balance is a truthy number. -/
theorem truthy_mockBalance : truthy (.jnum mockBalance) = true := by decide

/-- Number(x) || 0 always stores a value of number type: a finite number or
an infinity. -/
theorem isNum_numOr0 (v : JVal) : isNum (numOr0 v) = true := by
  unfold numOr0
  cases toNumber v <;> rfl

/- ---------- Claim C7 ---------- -/

/-- Claim C7: every top-up submission with amount strictly below the fixed
minimum of 50 is rejected client side with the minimum-amount message and no
network request is issued (the reject outcome carries no request), and every
amount of at least 50 passes the client-side minimum check and proceeds to
the /pay/topup request. -/
theorem c7_topup_minimum (amount : ℚ) (method : String) :
    (amount < 50 → startPayment amount method = .reject "Provide a valid amount (min 50)") ∧
    (50 ≤ amount → startPayment amount method = .callTopup amount method) := by
  constructor
  · intro h
    have hc : amount = 0 ∨ amount < 50 := Or.inr h
    simp [startPayment, hc]
  · intro h
    have hc : ¬(amount = 0 ∨ amount < 50) := by
      rintro (rfl | hlt) <;> linarith
    simp [startPayment, hc]

/-- Claim C7 witness: amount 49 is rejected with the minimum-amount message
and amount 50 proceeds to the request. -/
theorem c7_topup_minimum_witness :
    startPayment 49 "card" = .reject "Provide a valid amount (min 50)" ∧
    startPayment 50 "card" = .callTopup 50 "card" :=
  ⟨(c7_topup_minimum 49 "card").1 (by norm_num),
   (c7_topup_minimum 50 "card").2 (by norm_num)⟩

/- ---------- Claim C8 ---------- -/

/-- Claim C8: toggling balance visibility is an involution on the displayed
balance text, and one toggle from the visible state shows the masked
placeholder. -/
theorem c8_toggle_involution (st : St) :
    balanceText (toggleBalance (toggleBalance st)) = balanceText st ∧
    (st.app.balanceVisible = true → balanceText (toggleBalance st) = "****") := by
  constructor
  · simp [balanceText, toggleBalance]
  · intro h
    simp [balanceText, toggleBalance, h]

/-- Claim C8 witness: from the start state (balance visible) one toggle
masks the display and two toggles restore the original text. -/
theorem c8_toggle_involution_witness :
    balanceText (toggleBalance (toggleBalance initialSt)) = balanceText initialSt ∧
    balanceText (toggleBalance initialSt) = "****" :=
  ⟨(c8_toggle_involution initialSt).1, (c8_toggle_involution initialSt).2 rfl⟩

/- ---------- Claim C4 ---------- -/

/-- Claim C4 (code bug in the legacy variant): the canonical logout clears
the session token and user, removes both durable storage entries, returns to
the auth screen and changes nothing else, for every state; the legacy logout
clears the session but leaves the durable storage exactly as it was, shown
both in general and at a logged-in state holding the fixture token. -/
theorem c4_logout_storage (st : St) :
    (logout st).app.token = .jnull ∧
    (logout st).app.user = .jnull ∧
    (logout st).store.pd_token = none ∧
    (logout st).store.pd_user = none ∧
    (logout st).screen = .auth ∧
    (logout st).app.balanceVisible = st.app.balanceVisible ∧
    (logout st).app.balance = st.app.balance ∧
    (logout st).app.transactions = st.app.transactions ∧
    (logoutLegacy st).store = st.store ∧
    (logoutLegacy { st with
        store := { pd_token := some mockToken, pd_user := some mockUser } }).store.pd_token
      = some mockToken :=
  ⟨rfl, rfl, rfl, rfl, rfl, rfl, rfl, rfl, rfl, rfl⟩

/- ---------- Claim C10 ---------- -/

/-- Claim C10 counterexample: in the legacy variant, a success reply whose
body is an object without a balance field leaves the stored balance as the
undefined value, which is not a number. -/
theorem c10_counterexample :
    (refreshBalanceLegacy initialSt { ok := true, data := .jobj [] }).app.balance = .undefined ∧
    isNum (refreshBalanceLegacy initialSt { ok := true, data := .jobj [] }).app.balance = false :=
  ⟨rfl, rfl⟩

/-- Claim C10 (amended): in the canonical variant, after every completed
balance refresh, whatever the shape or success of the reply, the stored
balance is a number. -/
theorem c10_amended (st : St) (res : ApiResp) :
    isNum (refreshBalance st res).app.balance = true := by
  unfold refreshBalance
  dsimp only
  split
  · exact isNum_numOr0 _
  · split
    · next h =>
        exact (Bool.and_eq_true _ _ ▸ h).2
    · rw [jsOr_pos _ truthy_mockBalance]
      rfl

/- ---------- Claim C3 ---------- -/

/-- Claim C3 counterexample: a success reply whose body is an object without
a balance field is a non-numeric reply value, yet the stored balance is the
fixture value 15200.5, not the 0 the claim asks for. -/
theorem c3_counterexample :
    (refreshBalance initialSt { ok := true, data := .jobj [] }).app.balance = .jnum mockBalance ∧
    mockBalance ≠ 0 ∧
    (refreshBalance initialSt { ok := true, data := .jobj [] }).app.balance ≠ .jnum 0 := by
  refine ⟨rfl, by decide, ?_⟩
  intro h
  have h2 : JVal.jnum mockBalance = .jnum 0 := h
  injection h2 with h3
  exact absurd h3 (by decide)

/-- Claim C3 (amended): for every successful balance reply, if the reply has
a defined balance field, Number of that field value (finite, infinite, or 0
for a NaN coercion) is stored; else if the reply itself is of number type,
that value is stored; and otherwise the stored balance falls back to the
fixture value 15200.5 rather than 0. -/
theorem c3_amended (st : St) (res : ApiResp) (hok : res.ok = true) :
    (∀ q : ℚ, isUndefined (getField res.data "balance") = false →
        toNumber (getField res.data "balance") = .fin q →
        (refreshBalance st res).app.balance = .jnum q) ∧
    (isUndefined (getField res.data "balance") = false →
        toNumber (getField res.data "balance") = .nan →
        (refreshBalance st res).app.balance = .jnum 0) ∧
    (∀ b : Bool, isUndefined (getField res.data "balance") = false →
        toNumber (getField res.data "balance") = .inf b →
        (refreshBalance st res).app.balance = .jinf b) ∧
    (isUndefined (getField res.data "balance") = true → isNum res.data = true →
        (refreshBalance st res).app.balance = res.data) ∧
    (isUndefined (getField res.data "balance") = true → isNum res.data = false →
        (refreshBalance st res).app.balance = .jnum mockBalance) := by
  refine ⟨?_, ?_, ?_, ?_, ?_⟩
  · intro q hu hq
    simp [refreshBalance, hok, hu, numOr0, hq]
  · intro hu hq
    simp [refreshBalance, hok, hu, numOr0, hq]
  · intro b hu hq
    simp [refreshBalance, hok, hu, numOr0, hq]
  · intro hu hnum
    simp [refreshBalance, hok, hu, hnum]
  · intro hu hnum
    simp [refreshBalance, hok, hu, hnum, jsOr_pos _ truthy_mockBalance]

/-- Claim C3 witness: a success reply whose balance field is the decimal
string 15200.50 stores the number 15200.5, exercising the fraction parsing
of the Number conversion. -/
theorem c3_amended_witness :
    (refreshBalance initialSt
        { ok := true, data := .jobj [("balance", .jstr "15200.50")] }).app.balance
      = .jnum mockBalance :=
  (c3_amended initialSt { ok := true, data := .jobj [("balance", .jstr "15200.50")] }
    rfl).1 mockBalance rfl (by decide)

/- ---------- Claim C2 ---------- -/

/-- Claim C2 counterexample: a transaction whose title field is present but
holds the empty string is rendered with its description, not with the present
title, so presence alone does not decide the precedence. -/
theorem c2_counterexample :
    getField (.jobj [("title", .jstr ""), ("description", .jstr "Payment")]) "title"
      = .jstr "" ∧
    (renderRow (.jobj [("title", .jstr ""), ("description", .jstr "Payment")])).title
      = .jstr "Payment" ∧
    (renderRow (.jobj [("title", .jstr ""), ("description", .jstr "Payment")])).title
      ≠ getField (.jobj [("title", .jstr ""), ("description", .jstr "Payment")]) "title" := by
  refine ⟨rfl, rfl, ?_⟩
  intro h
  have h2 : JVal.jstr "Payment" = .jstr "" := h
  injection h2 with h3
  exact absurd h3 (by decide)

/-- Claim C2 (amended): every element of a loaded transaction list is
rendered as one row, whose title is the first truthy value of the title,
description and type fields in that order, else the literal string
Transaction; a present but falsy field (such as the empty string) is skipped
by this chain. -/
theorem c2_amended (xs : List JVal) (tx : JVal) (hmem : tx ∈ xs) :
    renderRow tx ∈ renderedRows (renderTransactions (.jarr xs)) ∧
    (truthy (getField tx "title") = true →
        (renderRow tx).title = getField tx "title") ∧
    (truthy (getField tx "title") = false →
        truthy (getField tx "description") = true →
        (renderRow tx).title = getField tx "description") ∧
    (truthy (getField tx "title") = false →
        truthy (getField tx "description") = false →
        truthy (getField tx "type") = true →
        (renderRow tx).title = getField tx "type") ∧
    (truthy (getField tx "title") = false →
        truthy (getField tx "description") = false →
        truthy (getField tx "type") = false →
        (renderRow tx).title = .jstr "Transaction") := by
  refine ⟨?_, ?_, ?_, ?_, ?_⟩
  · cases xs with
    | nil => cases hmem
    | cons a l =>
        simp only [renderTransactions, renderedRows]
        exact List.mem_map_of_mem renderRow hmem
  · intro h1
    simp [renderRow, jsOr_pos _ h1]
  · intro h1 h2
    simp [renderRow, jsOr_neg _ h1, jsOr_pos _ h2]
  · intro h1 h2 h3
    simp [renderRow, jsOr_neg _ h1, jsOr_neg _ h2, jsOr_pos _ h3]
  · intro h1 h2 h3
    simp [renderRow, jsOr_neg _ h1, jsOr_neg _ h2, jsOr_neg _ h3]

/-- Claim C2 witness: the first fixture transaction, rendered from a
singleton list, appears as a row titled by its truthy title field. -/
theorem c2_amended_witness :
    renderRow (.jobj [("title", .jstr "Top up")]) ∈
      renderedRows (renderTransactions (.jarr [.jobj [("title", .jstr "Top up")]])) ∧
    (renderRow (.jobj [("title", .jstr "Top up")])).title = .jstr "Top up" := by
  have h := c2_amended [.jobj [("title", .jstr "Top up")]]
    (.jobj [("title", .jstr "Top up")]) (List.mem_singleton.mpr rfl)
  exact ⟨h.1, h.2.1 rfl⟩

/- ---------- Claim C6 ---------- -/

/-- Claim C6 counterexample: with no backend configured, the legacy variant
fails an offline /pay/topup call with its not-configured error, although the
path belongs to one of the six endpoint families. -/
theorem c6_counterexample :
    strIncludes "/pay/topup" "/pay/topup" = true ∧
    (apiFetchMockLegacy "/pay/topup" 0).ok = false ∧
    (apiFetchMockLegacy "/pay/topup" 0).error = .jstr "No API configured (demo mode)" :=
  ⟨by decide, rfl, rfl⟩

/-- Claim C6 (amended): in the canonical variant, with no backend base
address configured, every call whose path contains one of the six endpoint
family markers gets a synthesized success reply (the data families carrying
the fixture dataset), and every other path gets the not-configured error.
The legacy variant omits /pay/topup from its offline match list. -/
theorem c6_amended (path : String) (now : Nat) :
    ((strIncludes path "/auth/login" = true ∨ strIncludes path "/auth/register" = true ∨
      strIncludes path "/me/balance" = true ∨ strIncludes path "/me/transactions" = true ∨
      strIncludes path "/pay/service" = true ∨ strIncludes path "/pay/topup" = true) →
        (apiFetchMock path now).ok = true) ∧
    (strIncludes path "/auth/login" = false → strIncludes path "/auth/register" = false →
     strIncludes path "/me/balance" = false → strIncludes path "/me/transactions" = false →
     strIncludes path "/pay/service" = false → strIncludes path "/pay/topup" = false →
        apiFetchMock path now = { ok := false, error := .jstr "No API configured" }) ∧
    (strIncludes path "/auth/login" = true →
        (apiFetchMock path now).data = .jobj [("token", mockToken), ("user", mockUser)]) ∧
    (strIncludes path "/auth/login" = false → strIncludes path "/auth/register" = false →
     strIncludes path "/me/balance" = true →
        (apiFetchMock path now).data = .jobj [("balance", .jnum mockBalance)]) ∧
    (strIncludes path "/auth/login" = false → strIncludes path "/auth/register" = false →
     strIncludes path "/me/balance" = false → strIncludes path "/me/transactions" = true →
        (apiFetchMock path now).data = .jobj [("transactions", mockTransactions)]) := by
  refine ⟨?_, ?_, ?_, ?_, ?_⟩
  · intro h
    unfold apiFetchMock
    repeat' split
    all_goals first
      | rfl
      | (rcases h with h | h | h | h | h | h <;> simp_all)
  · intro h1 h2 h3 h4 h5 h6
    simp [apiFetchMock, h1, h2, h3, h4, h5, h6]
  · intro h1
    simp [apiFetchMock, h1]
  · intro h1 h2 h3
    simp [apiFetchMock, h1, h2, h3]
  · intro h1 h2 h3 h4
    simp [apiFetchMock, h1, h2, h3, h4]

/-- Claim C6 witness: an offline balance call succeeds with the fixture
balance, and an unrecognised path yields the not-configured error. -/
theorem c6_amended_witness :
    (apiFetchMock "/me/balance" 3).ok = true ∧
    (apiFetchMock "/me/balance" 3).data = .jobj [("balance", .jnum mockBalance)] ∧
    apiFetchMock "/other" 3 = { ok := false, error := .jstr "No API configured" } := by
  have h := c6_amended "/me/balance" 3
  have h2 := c6_amended "/other" 3
  exact ⟨h.1 (Or.inr (Or.inr (Or.inl (by decide)))),
         h.2.2.2.1 (by decide) (by decide) (by decide),
         h2.2.1 (by decide) (by decide) (by decide) (by decide) (by decide) (by decide)⟩

/- ---------- Claim C1 ---------- -/

/-- Claim C1: for every login or registration reply with a success status
whose body carries a truthy token or access_token field, the session ends up
authenticated with that non-empty token (the token field first, else the
access_token field), the dashboard is entered, both values are persisted, and
the session user is the user field when truthy, else the profile field when
truthy, else the fixed placeholder user. -/
theorem c1_auth_success (st : St) (res : ApiResp)
    (hok : res.ok = true) (hdata : truthy res.data = true)
    (htok : truthy (getField res.data "token") = true ∨
            truthy (getField res.data "access_token") = true) :
    (truthy (handleLogin st res).1.app.token = true ∧
     truthy (handleRegister st res).1.app.token = true) ∧
    ((handleLogin st res).2 = .loggedIn "Logged in" ∧
     (handleRegister st res).2 = .loggedIn "Account created") ∧
    ((handleLogin st res).1.screen = .dashboard ∧
     (handleRegister st res).1.screen = .dashboard) ∧
    ((handleLogin st res).1.store.pd_token = some (handleLogin st res).1.app.token ∧
     (handleLogin st res).1.store.pd_user = some (handleLogin st res).1.app.user) ∧
    (truthy (getField res.data "token") = true →
        (handleLogin st res).1.app.token = getField res.data "token" ∧
        (handleRegister st res).1.app.token = getField res.data "token") ∧
    (truthy (getField res.data "token") = false →
        (handleLogin st res).1.app.token = getField res.data "access_token" ∧
        (handleRegister st res).1.app.token = getField res.data "access_token") ∧
    (truthy (getField res.data "user") = true →
        (handleLogin st res).1.app.user = getField res.data "user" ∧
        (handleRegister st res).1.app.user = getField res.data "user") ∧
    (truthy (getField res.data "user") = false →
        truthy (getField res.data "profile") = true →
        (handleLogin st res).1.app.user = getField res.data "profile" ∧
        (handleRegister st res).1.app.user = getField res.data "profile") ∧
    (truthy (getField res.data "user") = false →
        truthy (getField res.data "profile") = false →
        (handleLogin st res).1.app.user = mockUser ∧
        (handleRegister st res).1.app.user = mockUser) := by
  have hguard : (res.ok && truthy res.data &&
      (truthy (getField res.data "token") || truthy (getField res.data "access_token")))
      = true := by
    rcases htok with h | h <;> simp [hok, hdata, h]
  refine ⟨⟨?_, ?_⟩, ⟨?_, ?_⟩, ⟨?_, ?_⟩, ⟨?_, ?_⟩, ?_, ?_, ?_, ?_, ?_⟩ <;>
    simp only [handleLogin, handleRegister, hguard, if_true]
  · simp only [truthy_jsOr]
    rcases htok with h | h <;> simp [h]
  · simp only [truthy_jsOr]
    rcases htok with h | h <;> simp [h]
  · intro h1
    simp [jsOr_pos _ h1]
  · intro h1
    simp [jsOr_neg _ h1]
  · intro h1
    simp [jsOr_pos _ h1]
  · intro h1 h2
    simp [jsOr_neg _ h1, jsOr_pos _ h2]
  · intro h1 h2
    simp [jsOr_neg _ h1, jsOr_neg _ h2]

/-- Claim C1 witness: a success reply carrying only an access_token and no
user produces an authenticated session whose token is that access_token and
whose user is the placeholder user. -/
theorem c1_auth_success_witness :
    truthy (handleLogin initialSt
      { ok := true, data := .jobj [("access_token", .jstr "t123")] }).1.app.token = true ∧
    (handleLogin initialSt
      { ok := true, data := .jobj [("access_token", .jstr "t123")] }).1.app.token
      = getField (.jobj [("access_token", .jstr "t123")]) "access_token" ∧
    (handleLogin initialSt
      { ok := true, data := .jobj [("access_token", .jstr "t123")] }).1.app.user = mockUser ∧
    (handleLogin initialSt
      { ok := true, data := .jobj [("access_token", .jstr "t123")] }).2
      = .loggedIn "Logged in" := by
  obtain ⟨⟨a1, _⟩, ⟨b1, _⟩, _, _, _, f1, _, _, i1⟩ :=
    c1_auth_success initialSt { ok := true, data := .jobj [("access_token", .jstr "t123")] }
      rfl rfl (Or.inr (by decide))
  exact ⟨a1, (f1 rfl).1, (i1 rfl rfl).1, b1⟩

/- ---------- Claim C9 ---------- -/

/-- Claim C9: a login or registration reply with a success status whose body
carries neither a truthy token nor a truthy access_token leaves the whole
state unchanged (in particular the token stays what it was and nothing is
written to durable storage) and takes the failure-toast outcome instead of
entering the dashboard. -/
theorem c9_auth_no_token (st : St) (res : ApiResp)
    (hok : res.ok = true)
    (ht : truthy (getField res.data "token") = false)
    (ha : truthy (getField res.data "access_token") = false) :
    handleLogin st res = (st, .failed (failMsg res "Login failed")) ∧
    handleRegister st res = (st, .failed (failMsg res "Register failed")) ∧
    (handleLogin st res).1.app.token = st.app.token ∧
    (handleLogin st res).1.store = st.store ∧
    (handleLogin st res).1.screen = st.screen := by
  have hguard : (res.ok && truthy res.data &&
      (truthy (getField res.data "token") || truthy (getField res.data "access_token")))
      = false := by
    simp [ht, ha]
  simp [handleLogin, handleRegister, hguard]

/-- Claim C9 witness: a success reply whose body holds only a user object
leaves the start state unchanged and toasts the login failure message. -/
theorem c9_auth_no_token_witness :
    handleLogin initialSt { ok := true, data := .jobj [("user", mockUser)] }
      = (initialSt, .failed (failMsg { ok := true, data := .jobj [("user", mockUser)] }
          "Login failed")) ∧
    (handleLogin initialSt { ok := true, data := .jobj [("user", mockUser)] }).1.store
      = initialSt.store ∧
    (handleLogin initialSt { ok := true, data := .jobj [("user", mockUser)] }).1.screen
      = initialSt.screen := by
  obtain ⟨h1, _, _, h4, h5⟩ :=
    c9_auth_no_token initialSt { ok := true, data := .jobj [("user", mockUser)] } rfl rfl rfl
  exact ⟨h1, h4, h5⟩

/- ---------- Claim C5 ---------- -/

/-- Claim C5 counterexample: in the legacy variant a failed service payment
with a backend-provided message field toasts the fixed transport text, not
the first available message of the claimed chain. -/
theorem c5_counterexample :
    (payServiceResultLegacy initialSt
      { ok := false, data := .jobj [("message", .jstr "no funds")] }).2
      = .failed (.jstr "Service failed: server error") ∧
    getField (.jobj [("message", .jstr "no funds")]) "message" = .jstr "no funds" ∧
    "Service failed: server error" ≠ "no funds" :=
  ⟨rfl, rfl, by decide⟩

/-- Claim C5 (amended): in the canonical variant, every failed login, top-up
or service-payment reply toasts the failure-message chain, which picks the
first truthy value of the body message field, the body error field and the
transport-level error string, else the fixed fallback; in particular a login
rejected with status 401 and the invalid-credentials message toasts exactly
that message and leaves state and screen unchanged. The legacy variant
instead toasts a fixed prefix plus only the transport-level error string. -/
theorem c5_amended (st : St) (res : ApiResp) (fb : String) (hfail : res.ok = false) :
    handleLogin st res = (st, .failed (failMsg res "Login failed")) ∧
    startPaymentResult st res = (st, .failed (failMsg res "Top up failed")) ∧
    payServiceResult st res = (st, .failed (failMsg res "Service payment failed")) ∧
    (truthy (getField res.data "message") = true →
        failMsg res fb = getField res.data "message") ∧
    (truthy (getField res.data "message") = false →
        truthy (getField res.data "error") = true →
        failMsg res fb = getField res.data "error") ∧
    (truthy (getField res.data "message") = false →
        truthy (getField res.data "error") = false → truthy res.error = true →
        failMsg res fb = res.error) ∧
    (truthy (getField res.data "message") = false →
        truthy (getField res.data "error") = false → truthy res.error = false →
        failMsg res fb = .jstr fb) ∧
    handleLogin st { ok := false, status := some 401, data := .jobj [("message", .jstr "invalid credentials")] }
      = (st, .failed (.jstr "invalid credentials")) ∧
    (handleLogin st { ok := false, status := some 401, data := .jobj [("message", .jstr "invalid credentials")] }).1.screen = st.screen := by
  refine ⟨?_, ?_, ?_, ?_, ?_, ?_, ?_, ?_, ?_⟩
  · simp [handleLogin, hfail]
  · simp [startPaymentResult, hfail]
  · simp [payServiceResult, hfail]
  · intro h1
    simp [failMsg, jsOr_pos _ h1]
  · intro h1 h2
    simp [failMsg, jsOr_neg _ h1, jsOr_pos _ h2]
  · intro h1 h2 h3
    simp [failMsg, jsOr_neg _ h1, jsOr_neg _ h2, jsOr_pos _ h3]
  · intro h1 h2 h3
    simp [failMsg, jsOr_neg _ h1, jsOr_neg _ h2, jsOr_neg _ h3]
  · rfl
  · rfl

/-- Claim C5 witness: a failed login whose body carries a message field
toasts exactly that message, and the 401 invalid-credentials login toasts
exactly the invalid-credentials text from the start state. -/
theorem c5_amended_witness :
    handleLogin initialSt { ok := false, data := .jobj [("message", .jstr "no funds")] }
      = (initialSt, .failed (failMsg { ok := false, data := .jobj [("message", .jstr "no funds")] }
          "Login failed")) ∧
    failMsg { ok := false, data := .jobj [("message", .jstr "no funds")] } "Login failed"
      = .jstr "no funds" ∧
    handleLogin initialSt { ok := false, status := some 401, data := .jobj [("message", .jstr "invalid credentials")] }
      = (initialSt, .failed (.jstr "invalid credentials")) := by
  obtain ⟨h1, _, _, h4, _, _, _, h8, _⟩ :=
    c5_amended initialSt { ok := false, data := .jobj [("message", .jstr "no funds")] }
      "Login failed" rfl
  exact ⟨h1, h4 rfl, h8⟩
